import Mathlib

/-!
Verification development for the DuneQueryRepo repository.

The repository contains two Python scripts that drive the Dune Analytics
HTTP API:

* `src/scripts/check_addresses.py` — validates a hex address, submits a
  query (`execute_dune_query`), polls the execution status and fetches the
  result rows, collapsing every failure to the return value `False`;
  `process_csv` maps that boolean back to a `yes`/`no`/`error` verdict for
  the first CSV record.
* `src/scripts/pull_from_dune.py` — submits a query (`execute_query`),
  polls with `wait_for_completion` (30 attempts, fixed 5s delay), fetches
  with `get_results` and saves the payload (`process_query`).

The network is modelled by an oracle `Env : Nat → HttpResult` giving the
outcome of the n-th HTTP request made by a run, and every embedded
function additionally returns the ordered list of endpoints it hit.
Python exceptions are modelled with `Except PyExn`; the values that the
scripts inspect out of decoded JSON bodies are modelled by a small `Json`
type together with the exact dictionary/truthiness semantics the scripts
use (`dict.get`, `in`, `bool(...)`, `len(...)`).
-/

/-! ### Python string primitives

These mirror the Python string methods the scripts use (`.lower()`,
`.startswith()`, `[2:]`, `len`, `.strip()`), defined by structural
recursion over the character list so that concrete runs reduce inside
the kernel. -/

/-- Python `s.lower()` (the scripts only apply it to ASCII data). -/
def pyLower (s : String) : String := String.mk (s.toList.map Char.toLower)

/-- Python `s.startswith(pre)`. -/
def pyStartsWith (s pre : String) : Bool := pre.toList.isPrefixOf s.toList

/-- Python `s[n:]`. -/
def pyDrop (s : String) (n : Nat) : String := String.mk (s.toList.drop n)

/-- Python `len(s)` for a string. -/
def pyStrLen (s : String) : Nat := s.toList.length

/-- The ASCII whitespace stripped by Python `str.strip()`. -/
def isPySpace (c : Char) : Bool :=
  c == ' ' || c == '\t' || c == '\n' || c == '\r'
    || c == Char.ofNat 11 || c == Char.ofNat 12

/-- Python `s.strip()`. -/
def pyStrip (s : String) : String :=
  String.mk (((s.toList.dropWhile isPySpace).reverse.dropWhile isPySpace).reverse)

/-- Python `all(p(c) for c in s)`. -/
def pyAllChars (s : String) (p : Char → Bool) : Bool := s.toList.all p

instance {e a : Type} [DecidableEq e] [DecidableEq a] : DecidableEq (Except e a) := fun x y =>
  match x, y with
  | Except.error e1, Except.error e2 =>
    if h : e1 = e2 then Decidable.isTrue (by rw [h])
    else Decidable.isFalse (by intro hc; cases hc; exact h rfl)
  | Except.ok a1, Except.ok a2 =>
    if h : a1 = a2 then Decidable.isTrue (by rw [h])
    else Decidable.isFalse (by intro hc; cases hc; exact h rfl)
  | Except.error _, Except.ok _ => Decidable.isFalse (by intro hc; cases hc)
  | Except.ok _, Except.error _ => Decidable.isFalse (by intro hc; cases hc)

/-- A JSON value as decoded by `response.json()`. -/
inductive Json where
  | null
  | bool (b : Bool)
  | num (n : Int)
  | str (s : String)
  | arr (xs : List Json)
  | obj (kvs : List (String × Json))

/-- Python exceptions that the embedded code paths can raise. -/
inductive PyExn where
  | requestException
  | jsonDecodeError
  | httpError
  | attributeError
  | typeError
  | nameError
deriving DecidableEq

/-- First-match lookup in a JSON object's key/value list. -/
def lookupKV : List (String × Json) → String → Option Json
  | [], _ => none
  | (a, b) :: t, key => if a == key then some b else lookupKV t key

/-- Python `d.get(key)`: `None` when absent; `AttributeError` when `d` is
not a dict. -/
def pyGet (j : Json) (key : String) : Except PyExn (Option Json) :=
  match j with
  | Json.obj kvs => Except.ok (lookupKV kvs key)
  | _ => Except.error PyExn.attributeError

/-- Python `d.get(key, default)`. -/
def pyGetD (j : Json) (key : String) (d : Json) : Except PyExn Json :=
  match j with
  | Json.obj kvs => Except.ok ((lookupKV kvs key).getD d)
  | _ => Except.error PyExn.attributeError

/-- Python truthiness (`bool(x)`) of a JSON value. -/
def pyTruthy : Json → Bool
  | Json.null => false
  | Json.bool b => b
  | Json.num n => n != 0
  | Json.str s => s != ""
  | Json.arr xs => !xs.isEmpty
  | Json.obj kvs => !kvs.isEmpty

/-- Python `len(x)`: `TypeError` on values without a length. -/
def pyLen : Json → Except PyExn Nat
  | Json.str s => Except.ok s.length
  | Json.arr xs => Except.ok xs.length
  | Json.obj kvs => Except.ok kvs.length
  | _ => Except.error PyExn.typeError

/-- Python `x == "s"` for a JSON value `x`: true only for the equal string. -/
def Json.isStr : Json → String → Bool
  | Json.str t, s => t == s
  | _, _ => false

/-- Whether `needle` occurs as a contiguous substring of `hay`. -/
def occursIn (needle : List Char) : List Char → Bool
  | [] => needle.isEmpty
  | c :: t => needle.isPrefixOf (c :: t) || occursIn needle t

/-- Python `"s" in x`: key membership for dicts, element equality for
lists, substring test for strings, `TypeError` otherwise. -/
def pyContains (j : Json) (s : String) : Except PyExn Bool :=
  match j with
  | Json.obj kvs => Except.ok (kvs.any (fun kv => kv.1 == s))
  | Json.arr xs => Except.ok (xs.any (fun x => Json.isStr x s))
  | Json.str t => Except.ok (occursIn s.toList t.toList)
  | _ => Except.error PyExn.typeError

/-- `state.lower()` for the (string) states the scripts match on. -/
def jsonStrLower : Json → String
  | Json.str s => pyLower s
  | _ => ""

/-- Outcome of one HTTP request: a response with a status code and a
decoded body (`none` models a body on which `response.json()` raises), or
a transport-level exception raised by `requests`. -/
inductive HttpResult where
  | response (code : Nat) (body : Option Json)
  | netError

/-- The network oracle: result of the n-th HTTP request of a run. -/
def Env : Type := Nat → HttpResult

/-- The three Dune API endpoints the scripts talk to. -/
inductive Endpoint where
  | executeEp
  | statusEp
  | resultsEp
deriving DecidableEq

/-! ## check_addresses.py -/

/-- The hex alphabet accepted at `check_addresses.py` lines 58 and 287. -/
def isHexChar (c : Char) : Bool := "0123456789abcdefABCDEF".toList.contains c

/-- Lines 190–191 of `check_addresses.py`, value level:
`results.get('result', {}).get('rows', [])`. -/
def result_rows_of (results : Json) : Except PyExn Json :=
  match pyGetD results "result" (Json.obj []) with
  | Except.error e => Except.error e
  | Except.ok r1 => pyGetD r1 "rows" (Json.arr [])

/-- Lines 190–191 of `check_addresses.py`: the extracted rows together
with the `has_results = bool(result_rows)` signal. -/
def has_rows (results : Json) : Except PyExn Bool :=
  match result_rows_of results with
  | Except.error e => Except.error e
  | Except.ok rows => Except.ok (pyTruthy rows)

/-- Lines 185–197 of `check_addresses.py`: the `QUERY_STATE_COMPLETED`
branch. One GET to the results endpoint; on 200 the rows are extracted
(`len(result_rows)` is printed, so a row value without a length raises)
and their truthiness is returned; on any other code the function returns
`False`. -/
def fetch_results_branch (env : Env) (k : Nat) :
    Except PyExn (Option Bool) × List Endpoint :=
  match env k with
  | HttpResult.netError => (Except.error PyExn.requestException, [Endpoint.resultsEp])
  | HttpResult.response code body =>
    if code == 200 then
      match body with
      | none => (Except.error PyExn.jsonDecodeError, [Endpoint.resultsEp])
      | some results =>
        match result_rows_of results with
        | Except.error e => (Except.error e, [Endpoint.resultsEp])
        | Except.ok rows =>
          match pyLen rows with
          | Except.error e => (Except.error e, [Endpoint.resultsEp])
          | Except.ok _ => (Except.ok (some (pyTruthy rows)), [Endpoint.resultsEp])
    else (Except.ok (some false), [Endpoint.resultsEp])

/-- One iteration of the poll loop, `check_addresses.py` lines 160–230.
`env k` is the status GET of this iteration.

* non-200 status response → `return False` (lines 172–175);
* `QUERY_STATE_COMPLETED` → `fetch_results_branch` (lines 183–197);
* `QUERY_STATE_FAILED` / `QUERY_STATE_CANCELED` (note the source spells
  CANCELED with one L) → one diagnostic GET to the results endpoint,
  then `return False` (lines 199–212);
* any other state falls through to line 216, which evaluates the name
  `results_url`.  The only assignment to `results_url` (line 185) is
  inside the COMPLETED branch, every path of which returns, so at line
  216 the name is always unbound and the statement raises `NameError`
  (lines 217–230 are therefore unreachable). -/
def poll_iter (env : Env) (k : Nat) : Except PyExn (Option Bool) × List Endpoint :=
  match env k with
  | HttpResult.netError => (Except.error PyExn.requestException, [Endpoint.statusEp])
  | HttpResult.response code body =>
    if code != 200 then (Except.ok (some false), [Endpoint.statusEp])
    else
      match body with
      | none => (Except.error PyExn.jsonDecodeError, [Endpoint.statusEp])
      | some statusData =>
        match pyGet statusData "state" with
        | Except.error e => (Except.error e, [Endpoint.statusEp])
        | Except.ok state? =>
          if Json.isStr (state?.getD Json.null) "QUERY_STATE_COMPLETED" then
            ((fetch_results_branch env (k + 1)).1,
              Endpoint.statusEp :: (fetch_results_branch env (k + 1)).2)
          else if Json.isStr (state?.getD Json.null) "QUERY_STATE_FAILED"
              || Json.isStr (state?.getD Json.null) "QUERY_STATE_CANCELED" then
            match env (k + 1) with
            | HttpResult.netError =>
              (Except.error PyExn.requestException, [Endpoint.statusEp, Endpoint.resultsEp])
            | HttpResult.response _ _ =>
              (Except.ok (some false), [Endpoint.statusEp, Endpoint.resultsEp])
          else (Except.error PyExn.nameError, [Endpoint.statusEp])

/-- The `for attempt in range(1, max_attempts + 1)` loop of
`check_addresses.py` lines 159–230.  Every path of the loop body returns
a value or raises (see `poll_iter`), so the loop never advances past its
first iteration; with zero iterations control falls past the loop and the
function returns Python `None` (modelled by `Except.ok none`). -/
def poll_loop (env : Env) (k : Nat) : Nat → Except PyExn (Option Bool) × List Endpoint
  | 0 => (Except.ok none, [])
  | _ + 1 => poll_iter env k

/-- The `try:` block of `execute_dune_query`, lines 104–230.  `env 0` is
the POST to the execute endpoint; a non-200 response returns `False`,
a missing/falsy `execution_id` or a submission state of
`QUERY_STATE_FAILED` returns `False`, otherwise the poll loop runs with
`max_attempts = 30`. -/
def execute_try_body (env : Env) : Except PyExn (Option Bool) × List Endpoint :=
  match env 0 with
  | HttpResult.netError => (Except.error PyExn.requestException, [Endpoint.executeEp])
  | HttpResult.response code body =>
    if code != 200 then (Except.ok (some false), [Endpoint.executeEp])
    else
      match body with
      | none => (Except.error PyExn.jsonDecodeError, [Endpoint.executeEp])
      | some result =>
        match pyGet result "execution_id" with
        | Except.error e => (Except.error e, [Endpoint.executeEp])
        | Except.ok execId? =>
          match pyGet result "state" with
          | Except.error e => (Except.error e, [Endpoint.executeEp])
          | Except.ok state? =>
            if !pyTruthy (execId?.getD Json.null)
                || Json.isStr (state?.getD Json.null) "QUERY_STATE_FAILED" then
              (Except.ok (some false), [Endpoint.executeEp])
            else
              ((poll_loop env 1 30).1, Endpoint.executeEp :: (poll_loop env 1 30).2)

/-- The `except Exception` handler of `check_addresses.py` lines
232–234: any exception escaping the `try:` block becomes the return value
`False`; a normal return value passes through. -/
def catch_to_false (r : Except PyExn (Option Bool) × List Endpoint) :
    Except PyExn (Option Bool) × List Endpoint :=
  match r with
  | (Except.error _, t) => (Except.ok (some false), t)
  | (Except.ok v, t) => (Except.ok v, t)

/-- `execute_dune_query(address_hex)`, `check_addresses.py` lines 30–234.
The validation prefix (lines 44–60) runs before the `try:` block and
issues no request: a missing `0x` prefix is added, then the total length
must be 42 and the part after `0x` must be hex, otherwise `False` is
returned immediately.  The `except Exception` handler (lines 232–234)
converts any exception raised inside the try block into the return value
`False`. -/
def execute_dune_query (addressHex : String) (env : Env) :
    Except PyExn (Option Bool) × List Endpoint :=
  if pyStrLen (if pyStartsWith (pyLower addressHex) "0x" then addressHex
      else "0x" ++ addressHex) != 42 then (Except.ok (some false), [])
  else if !pyAllChars (pyDrop (if pyStartsWith (pyLower addressHex) "0x" then addressHex
      else "0x" ++ addressHex) 2) isHexChar then (Except.ok (some false), [])
  else catch_to_false (execute_try_body env)

/-- The verdict written into the `is_verified` CSV column. -/
inductive Verdict where
  | yes
  | no
  | error
deriving DecidableEq

/-- The part of `address_hex` behind an optional `0x`/`0X` prefix,
`check_addresses.py` lines 283–284. -/
def hex_part_of (a : String) : String :=
  if pyStartsWith (pyLower a) "0x" then pyDrop a 2 else a

/-- The verdict computation of `process_csv` for the one row it
processes, `check_addresses.py` lines 266–341 (file output elided).

* empty address after `.strip()` → early return, no verdict (267–269);
* a non-hex character → printed error and early return, no verdict
  written (287–289);
* wrong length → `ValueError`, caught at 292, verdict `error` (290–301);
* otherwise `execute_dune_query` runs; its boolean is mapped to
  `yes`/`no` (`None` would map to `no`), and an escaped exception is
  mapped to `error` (313–341). -/
def process_first_row (addressHex : String) (env : Env) :
    Option Verdict × List Endpoint :=
  if pyStrip addressHex == "" then (none, [])
  else if !pyAllChars (hex_part_of (pyStrip (pyStrip addressHex))) isHexChar then (none, [])
  else if pyStrLen (hex_part_of (pyStrip (pyStrip addressHex))) != 40 then (some Verdict.error, [])
  else
    match execute_dune_query (pyStrip addressHex) env with
    | (Except.ok (some b), t) => (some (if b then Verdict.yes else Verdict.no), t)
    | (Except.ok none, t) => (some Verdict.no, t)
    | (Except.error _, t) => (some Verdict.error, t)

/-- Whether an address passes all of `process_csv`'s validation checks
(nonempty after strip, hex charset, length 40 without the prefix). -/
def passes_validation (addressHex : String) : Bool :=
  !(pyStrip addressHex == "")
    && pyAllChars (hex_part_of (pyStrip (pyStrip addressHex))) isHexChar
    && (pyStrLen (hex_part_of (pyStrip (pyStrip addressHex))) == 40)

/-- One CSV data row: the `address_hex` field and the `is_verified`
field (`none` = not filled in); the other columns ride along unchanged
and are elided. -/
structure Record where
  addr : String
  is_verified : Option Verdict
deriving DecidableEq

/-- `process_csv()`, `check_addresses.py` lines 236–343, modelled as the
final data rows of the output CSV, assuming the output file does not
exist beforehand (lines 250–254 then write a full copy of the input).
An early return (empty input, empty or non-hex first address) leaves the
copied rows untouched; every verdict-writing path overwrites the file
with only the first row (`writer.writerows([row])`, lines 300, 328,
341). -/
def process_csv (rows : List Record) (env : Env) : List Record :=
  match rows with
  | [] => []
  | row :: rest =>
    match (process_first_row row.addr env).1 with
    | none => row :: rest
    | some v => [{ addr := row.addr, is_verified := some v }]

/-- The poll-delay schedule of `check_addresses.py` line 161:
`wait_time = min(2 ** attempt, 60)`. -/
def wait_time (attempt : Nat) : Nat := min (2 ^ attempt) 60

/-! ## pull_from_dune.py -/

/-- `response.raise_for_status()` raises exactly for 4xx and 5xx codes. -/
def raiseForStatusFails (code : Nat) : Bool := 400 ≤ code && code < 600

/-- `get_execution_status(execution_id)`, `pull_from_dune.py` lines
38–55: `env k` is the status GET; a transport error, an error code or an
undecodable body (`requests`' JSON error is a `RequestException`) is
caught and reported as an `{"error": ...}` dict. -/
def get_execution_status (env : Env) (k : Nat) : Json :=
  match env k with
  | HttpResult.netError => Json.obj [("error", Json.str "Error getting status")]
  | HttpResult.response code body =>
    if raiseForStatusFails code then Json.obj [("error", Json.str "Error getting status")]
    else
      match body with
      | none => Json.obj [("error", Json.str "Error getting status")]
      | some j => j

/-- `execute_query(query_id)`, `pull_from_dune.py` lines 57–81: `env 0`
is the POST to the execute endpoint, with the same error handling as
`get_execution_status`. -/
def execute_query (env : Env) : Json :=
  match env 0 with
  | HttpResult.netError => Json.obj [("error", Json.str "Error executing query")]
  | HttpResult.response code body =>
    if raiseForStatusFails code then Json.obj [("error", Json.str "Error executing query")]
    else
      match body with
      | none => Json.obj [("error", Json.str "Error executing query")]
      | some j => j

/-- `get_results(execution_id)`, `pull_from_dune.py` lines 105–122:
`env k` is the results GET, with the same error handling as
`get_execution_status`. -/
def get_results (env : Env) (k : Nat) : Json :=
  match env k with
  | HttpResult.netError => Json.obj [("error", Json.str "Error getting results")]
  | HttpResult.response code body =>
    if raiseForStatusFails code then Json.obj [("error", Json.str "Error getting results")]
    else
      match body with
      | none => Json.obj [("error", Json.str "Error getting results")]
      | some j => j

/-- `wait_for_completion(execution_id, max_attempts, delay)`,
`pull_from_dune.py` lines 83–103.  The arguments are the index `k` of
the next HTTP request and the number of remaining attempts; the result
carries the returned dict (or a raised exception), the index of the next
unused request, and the endpoints hit.  Exhausting the attempts returns
`{"error": "Query execution timed out"}`. -/
def wait_for_completion (env : Env) (k : Nat) :
    Nat → Except PyExn Json × Nat × List Endpoint
  | 0 => (Except.ok (Json.obj [("error", Json.str "Query execution timed out")]), k, [])
  | r + 1 =>
    match pyContains (get_execution_status env k) "error" with
    | Except.error e => (Except.error e, k + 1, [Endpoint.statusEp])
    | Except.ok true => (Except.ok (get_execution_status env k), k + 1, [Endpoint.statusEp])
    | Except.ok false =>
      match pyGet (get_execution_status env k) "state" with
      | Except.error e => (Except.error e, k + 1, [Endpoint.statusEp])
      | Except.ok state? =>
        if Json.isStr (state?.getD Json.null) "QUERY_STATE_COMPLETED" then
          (Except.ok (Json.obj [("status", Json.str "completed")]), k + 1, [Endpoint.statusEp])
        else if Json.isStr (state?.getD Json.null) "QUERY_STATE_FAILED"
            || Json.isStr (state?.getD Json.null) "QUERY_STATE_CANCELLED" then
          (Except.ok (Json.obj [("error",
              Json.str ("Query execution " ++ jsonStrLower (state?.getD Json.null)))]),
            k + 1, [Endpoint.statusEp])
        else
          ((wait_for_completion env (k + 1) r).1,
            (wait_for_completion env (k + 1) r).2.1,
            Endpoint.statusEp :: (wait_for_completion env (k + 1) r).2.2)

/-- `process_query(query_id, results_dir)`, `pull_from_dune.py` lines
146–178: submit, poll to completion, and only on a completion without an
`"error"` key fetch the results once (`save_results` performs no HTTP
request and is elided; both of lines 174 and 178 return the fetched
dict).  `none` models the bare `return` paths. -/
def process_query (env : Env) : Except PyExn (Option Json) × List Endpoint :=
  match pyContains (execute_query env) "error" with
  | Except.error e => (Except.error e, [Endpoint.executeEp])
  | Except.ok true => (Except.ok none, [Endpoint.executeEp])
  | Except.ok false =>
    match pyGet (execute_query env) "execution_id" with
    | Except.error e => (Except.error e, [Endpoint.executeEp])
    | Except.ok execId? =>
      if !pyTruthy (execId?.getD Json.null) then (Except.ok none, [Endpoint.executeEp])
      else
        match (wait_for_completion env 1 30).1 with
        | Except.error e =>
          (Except.error e, Endpoint.executeEp :: (wait_for_completion env 1 30).2.2)
        | Except.ok comp =>
          match pyContains comp "error" with
          | Except.error e =>
            (Except.error e, Endpoint.executeEp :: (wait_for_completion env 1 30).2.2)
          | Except.ok true =>
            (Except.ok none, Endpoint.executeEp :: (wait_for_completion env 1 30).2.2)
          | Except.ok false =>
            match pyContains (get_results env (wait_for_completion env 1 30).2.1) "error" with
            | Except.error e =>
              (Except.error e,
                Endpoint.executeEp :: (wait_for_completion env 1 30).2.2 ++ [Endpoint.resultsEp])
            | Except.ok _ =>
              (Except.ok (some (get_results env (wait_for_completion env 1 30).2.1)),
                Endpoint.executeEp :: (wait_for_completion env 1 30).2.2 ++ [Endpoint.resultsEp])

/-! ## Concrete network environments used by the claim theorems -/

/-- A well-formed 42-character address (`0x` + 40 hex characters). -/
def demoAddr : String := "0xaaaaaaaaaaaaaaaaaaaaaaaaaaaaaaaaaaaaaaaa"

/-- A 200 submission response carrying an execution id. -/
def execOkResp : HttpResult :=
  HttpResult.response 200 (some (Json.obj [("execution_id", Json.str "e1")]))

/-- A 200 status response reporting state `s`. -/
def statusResp (s : String) : HttpResult :=
  HttpResult.response 200 (some (Json.obj [("state", Json.str s)]))

/-- A 200 results response with one row. -/
def resultsRespOneRow : HttpResult :=
  HttpResult.response 200 (some (Json.obj [("result",
    Json.obj [("rows", Json.arr [Json.obj [("dt", Json.str "d")]])])]))

/-- Submission succeeds; the polled states are PENDING, RUNNING, RUNNING,
COMPLETED; the results endpoint then reports one row. -/
def envPoll4 : Env := fun k =>
  match k with
  | 0 => execOkResp
  | 1 => statusResp "QUERY_STATE_PENDING"
  | 2 => statusResp "QUERY_STATE_RUNNING"
  | 3 => statusResp "QUERY_STATE_RUNNING"
  | 4 => statusResp "QUERY_STATE_COMPLETED"
  | _ => resultsRespOneRow

/-- Submission succeeds; every status poll reports RUNNING. -/
def envRunning : Env := fun k =>
  if k == 0 then execOkResp else statusResp "QUERY_STATE_RUNNING"

/-- Submission succeeds; the first status poll reports FAILED; any later
request gets an empty 200 body. -/
def envFailedFirst : Env := fun k =>
  match k with
  | 0 => execOkResp
  | 1 => statusResp "QUERY_STATE_FAILED"
  | _ => HttpResult.response 200 (some (Json.obj []))

/-- Submission succeeds; the first status poll reports CANCELLED (the
spelling of the spec's status interface). -/
def envCancelled : Env := fun k =>
  match k with
  | 0 => execOkResp
  | 1 => statusResp "QUERY_STATE_CANCELLED"
  | _ => HttpResult.response 200 (some (Json.obj []))

/-- Submission succeeds; the first status poll reports the one-L CANCELED
string that `check_addresses.py` line 199 actually tests for. -/
def envCanceledOneL : Env := fun k =>
  match k with
  | 0 => execOkResp
  | 1 => statusResp "QUERY_STATE_CANCELED"
  | _ => HttpResult.response 200 (some (Json.obj []))

/-- Every request fails at the transport level. -/
def envNet : Env := fun _ => HttpResult.netError

/-- Every request gets a 200 response whose body is an empty JSON
object. -/
def envMalformed : Env := fun _ => HttpResult.response 200 (some (Json.obj []))

/-- Submission succeeds, the first poll reports COMPLETED, and the
results response has one row. -/
def envCheckYes : Env := fun k =>
  match k with
  | 0 => execOkResp
  | 1 => statusResp "QUERY_STATE_COMPLETED"
  | _ => resultsRespOneRow

/-! ## Claim theorems -/

/-- C1: given the status sequence PENDING, RUNNING, RUNNING, COMPLETED,
`pull_from_dune.py`'s `process_query` performs exactly 4 status queries
and then exactly one results request, as the claim states; but
`check_addresses.py`'s `execute_dune_query` on the same sequence performs
only a single status query and no results request, returning `False`:
its poll-loop body raises `NameError` on the unbound `results_url` in the
non-terminal branch (the `try` body ends in that error), so the loop
never reaches a second attempt. -/
theorem C1_poll_sequence :
    (process_query envPoll4).2
      = [Endpoint.executeEp, Endpoint.statusEp, Endpoint.statusEp, Endpoint.statusEp,
         Endpoint.statusEp, Endpoint.resultsEp]
    ∧ (∃ res, (process_query envPoll4).1 = Except.ok (some res))
    ∧ execute_dune_query demoAddr envPoll4
      = (Except.ok (some false), [Endpoint.executeEp, Endpoint.statusEp])
    ∧ (execute_try_body envPoll4).1 = Except.error PyExn.nameError :=
  ⟨rfl, ⟨_, rfl⟩, by decide, by decide⟩

/-- C2 counterexample: a transport failure on the submission request (an
ambiguous outcome, not a true negative) is reported as the not-verified
verdict `no` for a well-formed address, because `execute_dune_query`
collapses the exception to `False` and `process_csv` maps `False` to
`'no'`. -/
theorem C2_counterexample :
    process_first_row demoAddr envNet = (some Verdict.no, [Endpoint.executeEp]) := by decide

/-- C3 counterexample: a 200 results response whose body is `{}` (so the
nested `result.rows` structure is absent) yields `has_rows = ok false`,
byte-identical to the genuine zero-row payload, and the full fetch branch
returns the same `False` — not a fetch error as the claim requires. -/
theorem C3_counterexample :
    has_rows (Json.obj []) = Except.ok false
    ∧ has_rows (Json.obj [("result", Json.obj [("rows", Json.arr [])])]) = Except.ok false
    ∧ fetch_results_branch envMalformed 0 = (Except.ok (some false), [Endpoint.resultsEp]) :=
  ⟨rfl, rfl, rfl⟩

/-- C4 counterexample: when the first status poll reports
`QUERY_STATE_FAILED` (a terminal failure), `check_addresses.py` performs
a request to the results endpoint (the diagnostic GET of lines 204–205)
before returning `False`, contradicting the claim that no results request
is ever made after a terminal failure. -/
theorem C4_counterexample :
    (execute_dune_query demoAddr envFailedFirst).2
      = [Endpoint.executeEp, Endpoint.statusEp, Endpoint.resultsEp]
    ∧ (execute_dune_query demoAddr envFailedFirst).1 = Except.ok (some false) :=
  ⟨by decide, by decide⟩

/-- C5: on a status sequence that never reaches a terminal state,
`pull_from_dune.py`'s `wait_for_completion` returns the timed-out error
after exactly 30 (the default budget) status queries and `process_query`
performs zero results requests, as the claim states; but
`check_addresses.py`'s `execute_dune_query` returns `False` after exactly
one status query (the non-terminal branch raises `NameError` on the
unbound `results_url`) and has no timed-out outcome at all. -/
theorem C5_timeout_behavior :
    (wait_for_completion envRunning 1 30).1
      = Except.ok (Json.obj [("error", Json.str "Query execution timed out")])
    ∧ (wait_for_completion envRunning 1 30).2.2 = List.replicate 30 Endpoint.statusEp
    ∧ (process_query envRunning).2 = Endpoint.executeEp :: List.replicate 30 Endpoint.statusEp
    ∧ (process_query envRunning).1 = Except.ok none
    ∧ execute_dune_query demoAddr envRunning
      = (Except.ok (some false), [Endpoint.executeEp, Endpoint.statusEp]) :=
  ⟨rfl, rfl, rfl, rfl, by decide⟩

/-- C6 counterexample: on a poll tick reporting `QUERY_STATE_CANCELLED`
(the status interface's spelling), `check_addresses.py`'s loop body does
not take its terminal-failure branch (line 199 tests the misspelled
`QUERY_STATE_CANCELED`): it falls into the still-running branch and ends
in the `NameError` of line 216, whereas the genuinely tested one-L string
takes the terminal branch (returning `False` after the diagnostic results
GET).  So the cancelled state is treated as still running rather than
recognized as terminal. -/
theorem C6_counterexample :
    poll_iter envCancelled 1 = (Except.error PyExn.nameError, [Endpoint.statusEp])
    ∧ poll_iter envCanceledOneL 1
      = (Except.ok (some false), [Endpoint.statusEp, Endpoint.resultsEp]) :=
  ⟨rfl, rfl⟩

/-- C7 counterexample: a 40-character identifier containing non-hex
characters performs no network call, but it resolves to *no verdict at
all* — `process_csv` line 289 returns without writing `is_verified` —
rather than to the error/invalid-input verdict the claim requires. -/
theorem C7_counterexample :
    process_first_row "zzzzzzzzzzzzzzzzzzzzzzzzzzzzzzzzzzzzzzzz" envNet = (none, []) := by decide

/-- C8 counterexample: with two input records (both well-formed), the
program's output contains a verdict only for the first record; the second
record is dropped from the output entirely and receives no verdict,
contradicting the claim that every record gets one. -/
theorem C8_counterexample :
    process_csv [⟨demoAddr, none⟩, ⟨"0xbb", none⟩] envCheckYes
      = [⟨demoAddr, some Verdict.yes⟩] := by decide

/-- C9: the poll-wait schedule of `check_addresses.py` line 161,
`wait_time n = min(2 ** n, 60)`, is non-decreasing in the attempt
counter, and once a wait equals the 60-second cap every later wait equals
exactly 60 seconds. -/
theorem C9_backoff_schedule :
    (∀ m n : Nat, m ≤ n → wait_time m ≤ wait_time n)
    ∧ (∀ m n : Nat, wait_time m = 60 → m ≤ n → wait_time n = 60)
    ∧ (∀ n : Nat, wait_time n = min (2 ^ n) 60) := by
  refine ⟨fun m n h => ?_, fun m n h60 h => ?_, fun n => rfl⟩
  · exact min_le_min (Nat.pow_le_pow_right (by norm_num) h) (le_refl 60)
  · have hm : 2 ^ m ≤ 2 ^ n := Nat.pow_le_pow_right (by norm_num) h
    have h60m : 60 ≤ 2 ^ m := by
      rcases Nat.le_total (2 ^ m) 60 with hle | hle
      · have := min_eq_left hle
        rw [wait_time, this] at h60
        omega
      · exact hle
    exact min_eq_right (le_trans h60m hm)

/-- C9 witness: the schedule instantiated at concrete attempts. -/
theorem C9_backoff_witness : wait_time 2 ≤ wait_time 5 ∧ wait_time 10 = 60 :=
  ⟨C9_backoff_schedule.1 2 5 (by decide), C9_backoff_schedule.2.1 6 10 (by decide) (by decide)⟩

/-- C3: round-trip of result extraction, as the code actually behaves. A
results body `{"result": {"rows": xs}}` yields `has_rows` true exactly
when `xs` is nonempty; a dict body missing `result.rows` (for example
`{}`) yields `has_rows = false` through the `.get` defaults — the same
value as a genuine empty result, not a fetch error; only a non-dict body
raises (`AttributeError`). -/
theorem C3_round_trip_amended :
    (∀ xs : List Json,
      has_rows (Json.obj [("result", Json.obj [("rows", Json.arr xs)])])
        = Except.ok (!xs.isEmpty))
    ∧ has_rows (Json.obj []) = Except.ok false
    ∧ has_rows (Json.str "oops") = Except.error PyExn.attributeError :=
  ⟨fun _ => rfl, rfl, rfl⟩

/-- C6: on a poll tick reporting `QUERY_STATE_CANCELLED`,
`pull_from_dune.py`'s `wait_for_completion` terminates on that tick with
the distinct error outcome `Query execution query_state_cancelled` after
exactly one status query; `check_addresses.py`'s loop body instead (it
tests the one-L `QUERY_STATE_CANCELED`) treats the state as non-terminal
and ends that tick with the `NameError` of line 216, performing no
further request. -/
theorem C6_cancelled_amended :
    (∀ (env : Env) (k r : Nat),
      env k = HttpResult.response 200
          (some (Json.obj [("state", Json.str "QUERY_STATE_CANCELLED")])) →
      wait_for_completion env k (r + 1)
        = (Except.ok (Json.obj [("error", Json.str "Query execution query_state_cancelled")]),
           k + 1, [Endpoint.statusEp]))
    ∧ (∀ (env : Env) (k : Nat),
      env k = HttpResult.response 200
          (some (Json.obj [("state", Json.str "QUERY_STATE_CANCELLED")])) →
      poll_iter env k = (Except.error PyExn.nameError, [Endpoint.statusEp])) := by
  constructor
  · intro env k r h
    have hs : get_execution_status env k
        = Json.obj [("state", Json.str "QUERY_STATE_CANCELLED")] := by
      unfold get_execution_status
      rw [h]
      rfl
    simp only [wait_for_completion, hs]
    rfl
  · intro env k h
    unfold poll_iter
    rw [h]
    rfl

/-- C6 witness: the amended statement instantiated on the concrete
environment whose first poll reports CANCELLED. -/
theorem C6_cancelled_witness :
    wait_for_completion envCancelled 1 1
      = (Except.ok (Json.obj [("error", Json.str "Query execution query_state_cancelled")]),
         2, [Endpoint.statusEp])
    ∧ poll_iter envCancelled 1 = (Except.error PyExn.nameError, [Endpoint.statusEp]) :=
  ⟨C6_cancelled_amended.1 envCancelled 1 0 rfl, C6_cancelled_amended.2 envCancelled 1 rfl⟩

/-- C7: an identifier failing `process_csv`'s validation never triggers a
network call, and it never resolves to `yes` or `no`; but it resolves to
the `error` verdict only on a length failure — a hex-charset failure (or
an empty identifier) yields no verdict at all. -/
theorem C7_invalid_input_amended :
    ∀ (addressHex : String) (env : Env), passes_validation addressHex = false →
      (process_first_row addressHex env).2 = []
      ∧ (process_first_row addressHex env).1 ≠ some Verdict.yes
      ∧ (process_first_row addressHex env).1 ≠ some Verdict.no := by
  intro addressHex env h
  unfold passes_validation at h
  unfold process_first_row
  split_ifs with h1 h2 h3
  · exact ⟨rfl, by simp, by simp⟩
  · exact ⟨rfl, by simp, by simp⟩
  · exact ⟨rfl, by simp, by simp⟩
  · exfalso
    simp only [Bool.not_eq_true] at h1 h2 h3
    have h2t : pyAllChars (hex_part_of (pyStrip (pyStrip addressHex))) isHexChar = true := by
      cases hb : pyAllChars (hex_part_of (pyStrip (pyStrip addressHex))) isHexChar
      · rw [hb] at h2; simp at h2
      · rfl
    simp only [bne_eq_false_iff_eq] at h3
    rw [h1, h2t, h3] at h
    simp at h

/-- C7 witness: the amended statement instantiated at a concrete
non-hex identifier and a concrete environment. -/
theorem C7_invalid_input_witness :
    passes_validation "xyz" = false
    ∧ (process_first_row "xyz" envNet).2 = []
    ∧ (process_first_row "xyz" envNet).1 ≠ some Verdict.yes
    ∧ (process_first_row "xyz" envNet).1 ≠ some Verdict.no :=
  ⟨by decide, C7_invalid_input_amended "xyz" envNet (by decide)⟩

/-- C2: every input item that passes `process_csv`'s validation resolves
to exactly one verdict; but ambiguous outcomes are not kept apart from
true negatives — a transport failure on the submission request yields the
verdict `no`, because `execute_dune_query` collapses every failure to
`False`. -/
theorem C2_verdict_amended :
    (∀ (addressHex : String) (env : Env), passes_validation addressHex = true →
      ∃ v, (process_first_row addressHex env).1 = some v)
    ∧ (∀ env : Env, env 0 = HttpResult.netError →
      (process_first_row demoAddr env).1 = some Verdict.no) := by
  constructor
  · intro addressHex env h
    unfold passes_validation at h
    simp only [Bool.and_eq_true] at h
    obtain ⟨⟨hne, hhex⟩, hlen⟩ := h
    unfold process_first_row
    split_ifs with h1 h2 h3
    · rw [h1] at hne; simp at hne
    · rw [hhex] at h2; simp at h2
    · exact ⟨Verdict.error, rfl⟩
    · rcases hq : execute_dune_query (pyStrip addressHex) env with ⟨val, t⟩
      rcases val with e | o
      · exact ⟨Verdict.error, rfl⟩
      · rcases o with _ | b
        · exact ⟨Verdict.no, rfl⟩
        · exact ⟨if b then Verdict.yes else Verdict.no, rfl⟩
  · intro env h
    have hT : execute_try_body env
        = (Except.error PyExn.requestException, [Endpoint.executeEp]) := by
      unfold execute_try_body
      rw [h]
    have hQ : execute_dune_query demoAddr env
        = (Except.ok (some false), [Endpoint.executeEp]) := by
      unfold execute_dune_query
      rw [hT]
      decide
    unfold process_first_row
    simp only [show pyStrip demoAddr = demoAddr from by decide]
    rw [if_neg (by decide), if_neg (by decide), if_neg (by decide), hQ]
    rfl

/-- C2 witness: both parts of the amended statement instantiated on
concrete inputs. -/
theorem C2_verdict_witness :
    (∃ v, (process_first_row demoAddr envMalformed).1 = some v)
    ∧ (process_first_row demoAddr envNet).1 = some Verdict.no :=
  ⟨C2_verdict_amended.1 demoAddr envMalformed (by decide),
   C2_verdict_amended.2 envNet rfl⟩

/-- C8: the program processes only the first input record: the persisted
output is either the untouched copy of the input (when the first address
is empty or non-hex, so no record gets a verdict) or consists of exactly
the first record with its verdict, every later record being dropped
without one. -/
theorem C8_single_row_amended :
    ∀ (row : Record) (rest : List Record) (env : Env),
      process_csv (row :: rest) env = row :: rest
      ∨ ∃ v, process_csv (row :: rest) env
          = [{ addr := row.addr, is_verified := some v }] := by
  intro row rest env
  rcases hv : (process_first_row row.addr env).1 with _ | v
  · left
    simp only [process_csv, hv]
  · right
    exact ⟨v, by simp only [process_csv, hv]⟩

/-- Every request made inside `wait_for_completion` goes to the status
endpoint; the poll loop itself never touches the results endpoint. -/
theorem wait_trace_only_status (env : Env) :
    ∀ (r k : Nat) (e : Endpoint),
      e ∈ (wait_for_completion env k r).2.2 → e = Endpoint.statusEp := by
  intro r
  induction r with
  | zero =>
    intro k e he
    simp [wait_for_completion] at he
  | succ n ih =>
    intro k e he
    simp only [wait_for_completion] at he
    rcases hc : pyContains (get_execution_status env k) "error" with e0 | b0
    · rw [hc] at he
      simpa using he
    · rw [hc] at he
      rcases b0
      · rcases hg : pyGet (get_execution_status env k) "state" with e1 | state?
        · rw [hg] at he
          simpa using he
        · rw [hg] at he
          dsimp only at he
          split_ifs at he
          · simpa using he
          · simpa using he
          · simp only [List.mem_cons] at he
            rcases he with he | he
            · exact he
            · exact ih (k + 1) e he
      · simpa using he

/-- C4: `pull_from_dune.py` requests the results endpoint only when
polling ended in a completion whose dict has no `"error"` key; on a
terminal failure (FAILED/CANCELLED/timeout) or a poll error the results
endpoint is never requested.  (In `check_addresses.py` this fails: see
the C4 counterexample.) -/
theorem C4_no_fetch_amended :
    ∀ env : Env, Endpoint.resultsEp ∈ (process_query env).2 →
      ∃ comp, (wait_for_completion env 1 30).1 = Except.ok comp
        ∧ pyContains comp "error" = Except.ok false := by
  intro env h
  unfold process_query at h
  rcases hc0 : pyContains (execute_query env) "error" with e0 | b0
  · rw [hc0] at h
    simp at h
  · rw [hc0] at h
    rcases b0
    · rcases hg : pyGet (execute_query env) "execution_id" with e1 | execId?
      · rw [hg] at h
        simp at h
      · rw [hg] at h
        dsimp only at h
        by_cases ht : (!pyTruthy (execId?.getD Json.null)) = true
        · rw [if_pos ht] at h
          simp at h
        · rw [if_neg ht] at h
          rcases hw : (wait_for_completion env 1 30).1 with ew | comp
          · rw [hw] at h
            dsimp only at h
            simp only [List.mem_cons] at h
            rcases h with h | h
            · simp at h
            · exact absurd (wait_trace_only_status env 30 1 _ h) (by decide)
          · rw [hw] at h
            dsimp only at h
            rcases hcc : pyContains comp "error" with e2 | b2
            · rw [hcc] at h
              simp only [List.mem_cons] at h
              rcases h with h | h
              · simp at h
              · exact absurd (wait_trace_only_status env 30 1 _ h) (by decide)
            · rcases b2
              · exact ⟨comp, rfl, hcc⟩
              · rw [hcc] at h
                dsimp only at h
                simp only [List.mem_cons] at h
                rcases h with h | h
                · simp at h
                · exact absurd (wait_trace_only_status env 30 1 _ h) (by decide)
    · simp at h

/-- C4 witness: a successful completed run does request the results
endpoint, and indeed its completion carries no error key. -/
theorem C4_no_fetch_witness :
    Endpoint.resultsEp ∈ (process_query envPoll4).2
    ∧ ∃ comp, (wait_for_completion envPoll4 1 30).1 = Except.ok comp
        ∧ pyContains comp "error" = Except.ok false :=
  ⟨by decide, C4_no_fetch_amended envPoll4 (by decide)⟩

/-- The COMPLETED-branch fetch either returns a boolean or raises; it
never falls through without a value. -/
theorem fetch_results_branch_shape (env : Env) (k : Nat) :
    (∃ b, (fetch_results_branch env k).1 = Except.ok (some b))
    ∨ ∃ ex, (fetch_results_branch env k).1 = Except.error ex := by
  unfold fetch_results_branch
  rcases hk : env k with ⟨code, body⟩ | _
  · dsimp only
    by_cases hc : (code == 200) = true
    · rw [if_pos hc]
      rcases body with _ | results
      · exact Or.inr ⟨_, rfl⟩
      · dsimp only
        rcases hr : result_rows_of results with ex | rows
        · dsimp only
          exact Or.inr ⟨ex, rfl⟩
        · dsimp only
          rcases hl : pyLen rows with ex | n
          · dsimp only
            exact Or.inr ⟨ex, rfl⟩
          · dsimp only
            exact Or.inl ⟨pyTruthy rows, rfl⟩
    · rw [if_neg hc]
      exact Or.inl ⟨false, rfl⟩
  · exact Or.inr ⟨PyExn.requestException, rfl⟩

/-- Every path of the poll-loop body returns a boolean or raises: the
loop never continues to a second iteration and never produces the
fall-through `None`. -/
theorem poll_iter_shape (env : Env) (k : Nat) :
    (∃ b, (poll_iter env k).1 = Except.ok (some b))
    ∨ ∃ ex, (poll_iter env k).1 = Except.error ex := by
  unfold poll_iter
  rcases hk : env k with ⟨code, body⟩ | _
  · dsimp only
    by_cases hc : (code != 200) = true
    · rw [if_pos hc]
      exact Or.inl ⟨false, rfl⟩
    · rw [if_neg hc]
      rcases body with _ | statusData
      · exact Or.inr ⟨_, rfl⟩
      · dsimp only
        rcases hg : pyGet statusData "state" with ex | state?
        · dsimp only
          exact Or.inr ⟨ex, rfl⟩
        · dsimp only
          split_ifs with h1 h2
          · exact fetch_results_branch_shape env (k + 1)
          · rcases hk2 : env (k + 1) with ⟨c2, b2⟩ | _
            · exact Or.inl ⟨false, rfl⟩
            · exact Or.inr ⟨PyExn.requestException, rfl⟩
          · exact Or.inr ⟨PyExn.nameError, rfl⟩
  · exact Or.inr ⟨PyExn.requestException, rfl⟩

/-- The `try:` block of `execute_dune_query` always produces a boolean or
raises. -/
theorem execute_try_body_shape (env : Env) :
    (∃ b, (execute_try_body env).1 = Except.ok (some b))
    ∨ ∃ ex, (execute_try_body env).1 = Except.error ex := by
  unfold execute_try_body
  rcases hk : env 0 with ⟨code, body⟩ | _
  · dsimp only
    by_cases hc : (code != 200) = true
    · rw [if_pos hc]
      exact Or.inl ⟨false, rfl⟩
    · rw [if_neg hc]
      rcases body with _ | result
      · exact Or.inr ⟨_, rfl⟩
      · dsimp only
        rcases hg : pyGet result "execution_id" with ex | execId?
        · dsimp only
          exact Or.inr ⟨ex, rfl⟩
        · dsimp only
          rcases hg2 : pyGet result "state" with ex | state?
          · dsimp only
            exact Or.inr ⟨ex, rfl⟩
          · dsimp only
            split_ifs with h1
            · exact Or.inl ⟨false, rfl⟩
            · exact poll_iter_shape env 1
  · exact Or.inr ⟨PyExn.requestException, rfl⟩

/-- The composition of the `try:` body with the `except` handler always
yields a boolean. -/
theorem catch_total (env : Env) :
    ∃ b : Bool, (catch_to_false (execute_try_body env)).1 = Except.ok (some b) := by
  rcases hp : execute_try_body env with ⟨val, t⟩
  rcases execute_try_body_shape env with ⟨b, hb⟩ | ⟨ex, he⟩
  · rw [hp] at hb
    have hval : val = Except.ok (some b) := hb
    rw [hval]
    exact ⟨b, rfl⟩
  · rw [hp] at he
    have hval : val = Except.error ex := he
    rw [hval]
    exact ⟨false, rfl⟩

/-- C10: `execute_dune_query` is total at its boundary: for every input
string and every sequence of transport outcomes it returns a boolean —
validation failures return `False` before any request, and the
`except Exception` handler collapses every exception raised inside the
request/poll/fetch flow (including the `NameError` of line 216) to
`False`; the poll loop cannot exhaust its attempts, so the Python `None`
fall-through is unreachable. -/
theorem C10_total_boundary :
    ∀ (addressHex : String) (env : Env),
      ∃ b : Bool, (execute_dune_query addressHex env).1 = Except.ok (some b) := by
  intro addressHex env
  unfold execute_dune_query
  split_ifs
  all_goals try exact ⟨false, rfl⟩
  all_goals exact catch_total env
